import Mathlib

/-!
Shallow embedding of `battery_tray.py` (PiUpsHat): the INA219 driver
(calibration, register reads, bus-voltage and capacity conversion) and the
`BatteryTray.update_icon` per-tick logic (icon classification, tooltip,
and — notably — the absence of any shutdown invocation or error handler).
Machine words are modelled as `ℕ`; voltages, currents and capacities as `ℚ`.
-/

namespace PiUpsHat

/-- Module constant `INA219_ADDRESS = 0x42`. -/
def INA219_ADDRESS : ℕ := 0x42

/-- Module constant `INA219_REG_CONFIG = 0x00`. -/
def INA219_REG_CONFIG : ℕ := 0x00

/-- Module constant `INA219_REG_BUSVOLTAGE = 0x02`. -/
def INA219_REG_BUSVOLTAGE : ℕ := 0x02

/-- Module constant `INA219_REG_CALIBRATION = 0x05`. -/
def INA219_REG_CALIBRATION : ℕ := 0x05

/-- Module constant `CONFIG_VALUE = 0x19FF`. -/
def CONFIG_VALUE : ℕ := 0x19FF

/-- Module constant `CALIBRATION_VALUE = 4096`. -/
def CALIBRATION_VALUE : ℕ := 4096

/-! ## Device register file and calibration (INA219.set_calibration) -/

/-- The device register file, as a map from register address to stored word.
A word write `bus.write_word_data(addr, reg, val)` updates one register. -/
def write_word_data (regs : ℕ → ℕ) (reg val : ℕ) : ℕ → ℕ :=
  fun r => if r = reg then val else regs r

/-- `INA219.set_calibration`: writes `CALIBRATION_VALUE` to the CALIBRATION
register, then `CONFIG_VALUE` to the CONFIG register, in that order. -/
def set_calibration (regs : ℕ → ℕ) : ℕ → ℕ :=
  write_word_data (write_word_data regs INA219_REG_CALIBRATION CALIBRATION_VALUE)
    INA219_REG_CONFIG CONFIG_VALUE

/-! ## Byte-level reads (INA219.read_word)

The bus is modelled as a pure function from register address to the byte the
device answers; each `read_byte_data` call is logged so that the number and
order of byte transactions is part of the embedding. -/

/-- `bus.read_byte_data(addr, reg)`: returns the device byte for `reg` and
records the read in the transaction log. -/
def read_byte_data (bus : ℕ → ℕ) (reg : ℕ) : StateM (List ℕ) ℕ :=
  fun log => (bus reg, log ++ [reg])

/-- `INA219.read_word`: reads the byte at `reg` (high), then the byte at
`reg + 1` (low), and returns `(high <<< 8) + low`. -/
def read_word (bus : ℕ → ℕ) (reg : ℕ) : StateM (List ℕ) ℕ := do
  let high ← read_byte_data bus reg
  let low ← read_byte_data bus (reg + 1)
  pure ((high <<< 8) + low)

/-! ## Raw-word conversions -/

/-- `INA219.get_bus_voltage` applied to the raw BUS_VOLTAGE word:
`(raw >> 3) * 0.004` volts. -/
def get_bus_voltage (raw : ℕ) : ℚ :=
  ((raw >>> 3 : ℕ) : ℚ) * 0.004

/-- `INA219.get_capacity` applied to the measured voltage:
`capacity = (voltage - 6) / 2.4 * 100`, then clamped above at 100 and
below at 0 by the two `if` statements (2-cell pack, v_empty = 6.0,
v_full = 8.4). -/
def get_capacity (voltage : ℚ) : ℚ :=
  let capacity := (voltage - 6) / 2.4 * 100
  let capacity := if capacity > 100 then (100 : ℚ) else capacity
  let capacity := if capacity < 0 then (0 : ℚ) else capacity
  capacity

/-- Modelled from the spec: the repository source has no `current()`
operation (the `INA219` class reads only the bus voltage), so the driver
operation is taken from the spec text: read the CURRENT register as a raw
u16 and, if the raw value exceeds 32767, convert it via `raw - 65536`
before scaling by `current_lsb`. -/
def current_of_raw (w : ℕ) (current_lsb : ℚ) : ℚ :=
  ((if 32767 < w then (w : ℤ) - 65536 else (w : ℤ)) : ℚ) * current_lsb

/-- The mathematical two's-complement reinterpretation of a 16-bit word,
used to characterise `current_of_raw`. -/
def int16_of_word (w : ℕ) : ℤ :=
  (((w + 32768) % 65536 : ℕ) : ℤ) - 32768

/-! ## Per-tick presentation logic (BatteryTray.update_icon) -/

/-- The four theme icons `update_icon` can select from the capacity
thresholds. The source has exactly these four branches (plus a
`battery-missing` fallback when the theme lacks the icon, which concerns
icon lookup, not classification). -/
inductive ThemeIcon
  | battery_full
  | battery_good
  | battery_low
  | battery_caution
deriving DecidableEq

/-- The icon-selection chain of `update_icon`:
`> 75` full, `elif > 50` good, `elif > 25` low, `else` caution. -/
def select_icon (capacity : ℚ) : ThemeIcon :=
  if capacity > 75 then .battery_full
  else if capacity > 50 then .battery_good
  else if capacity > 25 then .battery_low
  else .battery_caution

/-- Rendering of the Python format specifier `:.1f` on the capacity value:
the value rounded to tenths, printed with one digit after the point.
All capacities reaching the tooltip are in [0, 100], where this agrees
with CPython. -/
def formatFixed1 (q : ℚ) : String :=
  let t : ℤ := round (q * 10)
  toString (t / 10) ++ "." ++ toString (t % 10).natAbs

/-- The everything `update_icon` does with one sample: which icon it picks,
the tooltip string it sets, and whether it invokes any shutdown action.
The body of `update_icon` (lines 119-136) selects an icon, sets it, and
sets the tooltip `f"Battery: \x7bcapacity:.1f\x7d%"`; it contains no call
to any shutdown collaborator, so the shutdown field is constantly false. -/
structure TickEffect where
  icon : ThemeIcon
  tooltip : String
  shutdown : Bool
deriving DecidableEq

/-- One invocation of `BatteryTray.update_icon` on a successfully read
capacity. -/
def update_icon (capacity : ℚ) : TickEffect :=
  { icon := select_icon capacity
    tooltip := "Battery: " ++ formatFixed1 capacity ++ "%"
    shutdown := false }

/-- A transport-level bus failure, carrying the failing address/register. -/
structure BusError where
  addr : ℕ
  reg : ℕ
deriving DecidableEq

/-- One timer tick as the source executes it: `update_icon` first calls
`self.ina219.get_capacity()` — there is no `try`/`except` anywhere in
`update_icon`, `get_capacity`, `get_bus_voltage` or `read_word`, so a
`BusError` raised by the bus propagates out of the tick unchanged and no
icon or tooltip is produced for that tick. -/
def update_icon_tick (sample : Except BusError ℚ) : Except BusError TickEffect := do
  let capacity ← sample
  pure (update_icon capacity)

/-- A run of the timer over a list of per-tick capacities (one successful
sample per tick). -/
def run_ticks (caps : List ℚ) : List TickEffect :=
  caps.map update_icon

/-- Number of ticks of a run on which a shutdown action was invoked. -/
def shutdown_count (caps : List ℚ) : ℕ :=
  (run_ticks caps).countP (fun t => t.shutdown)

/-- Modelled from the spec (for comparison with the code): the per-tick
firing pattern the claim describes — the shutdown collaborator fires
exactly on the first tick of each continuous excursion of capacity below
5. The boolean argument carries whether the previous tick was below 5. -/
def spec_shutdown_flags : List ℚ → Bool → List Bool
  | [], _ => []
  | c :: rest, below =>
      let now : Bool := decide (c < 5)
      (now && !below) :: spec_shutdown_flags rest now

/-- Modelled from the spec (for comparison with the code): the five-level
status classification the claim describes. -/
inductive SpecLevel
  | full
  | good
  | low
  | caution
  | critical
deriving DecidableEq

/-- Modelled from the spec (for comparison with the code): the claimed
five-way threshold rule, with Critical strictly below 5. -/
def spec_status_level (c : ℚ) : SpecLevel :=
  if c > 75 then .full
  else if c > 50 then .good
  else if c > 25 then .low
  else if c >= 5 then .caution
  else .critical

/-! ## Theorems -/

/-- Helper: adding a byte below 256 into the low bits of a shifted word is
the same as bitwise or. -/
theorem shiftLeft8_add_eq_or (h l : ℕ) (hl : l < 256) :
    (h <<< 8) + l = (h <<< 8) ||| l := by
  rw [Nat.shiftLeft_eq, Nat.mul_comm]
  exact Nat.mul_add_lt_is_or (by omega) h

/-- Claim C1, counterexample: on the capacity sequence 10, 4, 4 the claim
requires the shutdown collaborator to fire on the second tick (the first
tick with capacity below 5); the code fires on no tick at all — the body
of update_icon contains no shutdown invocation. -/
theorem C1_counterexample :
    (run_ticks [10, 4, 4]).map TickEffect.shutdown = [false, false, false] ∧
    spec_shutdown_flags [10, 4, 4] false = [false, true, false] := by
  decide

/-- Claim C1, amended: across every sequence of sampling ticks the code
invokes the critical-shutdown collaborator zero times — there is no
shutdown logic in update_icon — so at-most-once per excursion holds only
vacuously, and the claimed firing on the first tick below 5 never
happens. -/
theorem C1_amended_theorem (caps : List ℚ) : shutdown_count caps = 0 := by
  induction caps with
  | nil => rfl
  | cons c rest ih =>
      simp only [shutdown_count, run_ticks, List.map_cons, List.countP_cons,
        update_icon] at *
      simpa using ih

/-- Claim C2, counterexample: the code classifies capacity 4.9 and
capacity 5.0 identically (both select the battery-caution icon), while the
claimed five-level rule puts 4.9 in Critical and 5.0 in Caution; the code
has no Critical level at all. -/
theorem C2_counterexample :
    select_icon (4.9 : ℚ) = select_icon 5 ∧
    spec_status_level (4.9 : ℚ) ≠ spec_status_level 5 := by
  constructor
  · norm_num [select_icon]
  · norm_num [spec_status_level]
    decide

/-- Claim C2, amended: the per-tick classification maps every capacity c to
exactly one of FOUR icons by the rule c is greater than 75 to Full, greater
than 50 to Good, greater than 25 to Low, and everything else (including all
values below 5) to Caution; the boundary cases are 75.0 to Good, 75.1 to
Full, 5.0 to Caution, and 4.9 to Caution (not Critical — no Critical level
exists). -/
theorem C2_amended_theorem (c : ℚ) :
    (select_icon c = .battery_full ↔ 75 < c) ∧
    (select_icon c = .battery_good ↔ 50 < c ∧ c ≤ 75) ∧
    (select_icon c = .battery_low ↔ 25 < c ∧ c ≤ 50) ∧
    (select_icon c = .battery_caution ↔ c ≤ 25) ∧
    select_icon 75 = .battery_good ∧ select_icon (75.1 : ℚ) = .battery_full ∧
    select_icon 5 = .battery_caution ∧ select_icon (4.9 : ℚ) = .battery_caution := by
  refine ⟨?_, ?_, ?_, ?_, by norm_num [select_icon], by norm_num [select_icon],
    by norm_num [select_icon], by norm_num [select_icon]⟩ <;>
    (unfold select_icon; split_ifs <;> constructor <;> intro h <;> simp_all <;>
      linarith)

/-- Claim C3: get_capacity is clamped to the interval from 0 to 100; any
voltage at or above v_full = 8.4 yields exactly 100, any voltage at or
below v_empty = 6.0 yields exactly 0, and the halfway voltage 7.2 yields
exactly 50. -/
theorem C3_theorem (v : ℚ) :
    0 ≤ get_capacity v ∧ get_capacity v ≤ 100 ∧
    ((8.4 : ℚ) ≤ v → get_capacity v = 100) ∧
    (v ≤ 6 → get_capacity v = 0) ∧
    get_capacity (7.2 : ℚ) = 50 := by
  have e : (v - 6) / 2.4 * 100 = (v - 6) * (125 / 3) := by ring
  refine ⟨?_, ?_, ?_, ?_, by norm_num [get_capacity]⟩ <;>
    (simp only [get_capacity]; rw [e]; split_ifs <;> intros <;> norm_num at * <;>
      linarith)

/-- Claim C3, witness: the clamping conclusions at the concrete voltages 9
(above full) and 5 (below empty). -/
theorem C3_witness : get_capacity 9 = 100 ∧ get_capacity 5 = 0 :=
  ⟨(C3_theorem 9).2.2.1 (by norm_num), (C3_theorem 5).2.2.2.1 (by norm_num)⟩

/-- Claim C4: for every raw current word w up to 65535, the spec-modelled
current conversion equals the two's-complement reinterpretation of w scaled
by current_lsb — values above 32767 are converted via w - 65536 — and in
particular the raw word 0xFFFF with current_lsb = 0.1 yields -0.1. -/
theorem C4_theorem (w : ℕ) (hw : w ≤ 65535) (lsb : ℚ) :
    current_of_raw w lsb = (int16_of_word w : ℚ) * lsb ∧
    current_of_raw 0xFFFF (1 / 10) = -(1 / 10) := by
  constructor
  · unfold current_of_raw int16_of_word
    rcases Nat.lt_or_ge 32767 w with h | h
    · have hm : (w + 32768) % 65536 = w - 32768 := by omega
      have hs : ((w - 32768 : ℕ) : ℤ) = (w : ℤ) - 32768 := by omega
      rw [if_pos h, hm, hs]
      push_cast
      ring
    · have hm : (w + 32768) % 65536 = w + 32768 := by omega
      rw [if_neg (by omega), hm]
      push_cast
      ring
  · norm_num [current_of_raw]

/-- Claim C4, witness: the conversion at the concrete raw word 0xFFFF. -/
theorem C4_witness :
    current_of_raw 0xFFFF (1 / 10) = (int16_of_word 0xFFFF : ℚ) * (1 / 10) ∧
    current_of_raw 0xFFFF (1 / 10) = -(1 / 10) :=
  ⟨(C4_theorem 0xFFFF (by norm_num) (1 / 10)).1,
   (C4_theorem 0xFFFF (by norm_num) (1 / 10)).2⟩

/-- Claim C5: get_bus_voltage shifts the low 3 status bits out of the raw
word and scales by 0.004 volts — it equals a quotient by 8 times 1/250 —
and it is monotone non-decreasing in the raw word. -/
theorem C5_theorem (w w' : ℕ) :
    get_bus_voltage w = ((w / 8 : ℕ) : ℚ) * (1 / 250) ∧
    (w ≤ w' → get_bus_voltage w ≤ get_bus_voltage w') := by
  have he : ∀ u : ℕ, get_bus_voltage u = ((u / 8 : ℕ) : ℚ) * (1 / 250) := by
    intro u
    unfold get_bus_voltage
    rw [Nat.shiftRight_eq_div_pow]
    norm_num
  refine ⟨he w, fun h => ?_⟩
  rw [he w, he w']
  have hdiv : (w / 8 : ℕ) ≤ w' / 8 := Nat.div_le_div_right h
  have hc : ((w / 8 : ℕ) : ℚ) ≤ ((w' / 8 : ℕ) : ℚ) := by exact_mod_cast hdiv
  exact mul_le_mul_of_nonneg_right hc (by norm_num)

/-- Claim C5, witness: the scaling at raw word 16 and monotonicity from raw
word 16 to raw word 24. -/
theorem C5_witness :
    get_bus_voltage 16 = ((16 / 8 : ℕ) : ℚ) * (1 / 250) ∧
    get_bus_voltage 16 ≤ get_bus_voltage 24 :=
  ⟨(C5_theorem 16 24).1, (C5_theorem 16 24).2 (by norm_num)⟩

/-- Claim C6, counterexample: when the bus raises a BusError on a sampling
tick, update_icon propagates it unchanged — there is no handler anywhere in
the tick path — so no status of any kind (degraded or otherwise) is
delivered to the presentation sink for that tick. -/
theorem C6_counterexample :
    update_icon_tick (Except.error ⟨0x42, 0x02⟩) = Except.error ⟨0x42, 0x02⟩ ∧
    (update_icon_tick (Except.error ⟨0x42, 0x02⟩)).isOk = false :=
  ⟨rfl, rfl⟩

/-- Claim C6, amended: a BusError on a sampling tick propagates uncaught
out of the per-tick handler; the tick publishes nothing (no icon, no
tooltip, no degraded status), and whether the process survives is left
entirely to the host event loop — the code contains no error handling. -/
theorem C6_amended_theorem (e : BusError) :
    update_icon_tick (Except.error e) = Except.error e ∧
    (update_icon_tick (Except.error e)).isOk = false :=
  ⟨rfl, rfl⟩

/-- Claim C7: read_word performs exactly two byte reads, first from
register reg and then from register reg + 1, in that order, and when the
bus answers bytes the returned value is the high byte shifted left by 8
or-ed with the low byte. -/
theorem C7_theorem (bus : ℕ → ℕ) (reg : ℕ) (hbus : ∀ r, bus r < 256) :
    (read_word bus reg).run [] =
      ((bus reg <<< 8) ||| bus (reg + 1), [reg, reg + 1]) := by
  have e : (read_word bus reg).run []
      = ((bus reg <<< 8) + bus (reg + 1), [reg, reg + 1]) := rfl
  rw [e, shiftLeft8_add_eq_or (bus reg) (bus (reg + 1)) (hbus (reg + 1))]

/-- Claim C7, witness: the two logged reads and the combined value on a bus
that answers 18 for every register. -/
theorem C7_witness :
    (read_word (fun _ => 18) 2).run [] = ((18 <<< 8) ||| 18, [2, 3]) :=
  C7_theorem (fun _ => 18) 2 (fun _ => by norm_num)

/-- Claim C8: set_calibration writes the same fixed calibration word and
configuration word on every invocation, so invoking it twice leaves the
device register file in a state identical to invoking it once. -/
theorem C8_theorem (regs : ℕ → ℕ) :
    set_calibration (set_calibration regs) = set_calibration regs := by
  funext r
  simp only [set_calibration, write_word_data]
  split_ifs <;> rfl

/-- Claim C9, counterexample: the tooltip the code publishes for capacity
50 is exactly the string of "Battery: 50.0%" — it contains no letter V at
all, so it cannot contain the voltage segment, nor the current segment, of
the claimed format. -/
theorem C9_counterexample :
    (update_icon 50).tooltip = "Battery: 50.0%" ∧
    'V' ∉ (update_icon 50).tooltip.data := by
  have h : round ((50 : ℚ) * 10) = 500 := by norm_num [round_eq]
  constructor
  · simp only [update_icon, formatFixed1, h]
    rfl
  · simp only [update_icon, formatFixed1, h]
    decide

/-- Claim C9, amended: on every tick the published tooltip is formatted as
the word Battery, a colon and a space, the capacity rendered with one
decimal digit, and a percent sign — it contains the capacity only, not the
voltage and not the current. -/
theorem C9_amended_theorem :
    (∀ c : ℚ, (update_icon c).tooltip = "Battery: " ++ formatFixed1 c ++ "%") ∧
    (update_icon 50).tooltip = "Battery: 50.0%" ∧
    (update_icon (42.5 : ℚ)).tooltip = "Battery: 42.5%" := by
  refine ⟨fun c => rfl, ?_, ?_⟩
  · have h : round ((50 : ℚ) * 10) = 500 := by norm_num [round_eq]
    simp only [update_icon, formatFixed1, h]
    rfl
  · have h : round ((42.5 : ℚ) * 10) = 425 := by norm_num [round_eq]
    simp only [update_icon, formatFixed1, h]
    rfl

/-- Claim C10: for byte values high and low each below 256, read_word on a
bus answering those bytes returns high times 256 plus low, which fits in a
u16 (it is at most 65535), and the addition the code performs coincides
with the bitwise-or combination of the claim. -/
theorem C10_theorem (bus : ℕ → ℕ) (reg : ℕ) (hbus : ∀ r, bus r < 256) :
    ((read_word bus reg).run []).1 = bus reg * 256 + bus (reg + 1) ∧
    ((read_word bus reg).run []).1 ≤ 65535 ∧
    ((read_word bus reg).run []).1 = (bus reg <<< 8) ||| bus (reg + 1) := by
  have e : ((read_word bus reg).run []).1 = (bus reg <<< 8) + bus (reg + 1) := rfl
  have hsh : bus reg <<< 8 = bus reg * 256 := by
    rw [Nat.shiftLeft_eq]
  have hh := hbus reg
  have hl := hbus (reg + 1)
  refine ⟨by rw [e, hsh], by rw [e, hsh]; omega,
    by rw [e, shiftLeft8_add_eq_or (bus reg) (bus (reg + 1)) hl]⟩

/-- Claim C10, witness: the combination on a bus that answers 7 for every
register, read at register 0. -/
theorem C10_witness :
    ((read_word (fun _ => 7) 0).run []).1 = 7 * 256 + 7 ∧
    ((read_word (fun _ => 7) 0).run []).1 ≤ 65535 ∧
    ((read_word (fun _ => 7) 0).run []).1 = (7 <<< 8) ||| 7 :=
  C10_theorem (fun _ => 7) 0 (fun _ => by norm_num)

end PiUpsHat
